import Mathlib

/-!
Verification of the tpplug repository's decision engine and device crypto.

The development shallowly embeds:
- `tpplug/crypto.go` (`Encrypt`, `Decrypt`): the autokey XOR scheme, with
  bytes modelled as `Nat` (XOR never overflows a byte, so no masking is needed);
- `cmd/solarctrl/main.go` (`evaluate` and its helpers): the periodic
  evaluation cycle of the solar controller, with watts modelled as `Int`
  (Go `type Power int`), instants as `Int`, and the Go maps
  (`lastToggles`, `pauses`, `plugIndex`, `discPlugs`) as association lists.
Fallible collaborator calls (Prometheus queries, per-plug UDP queries, relay
commands) are modelled as `Option`-valued inputs / boolean outcome oracles.
-/

namespace Tpplug

/-- `Encrypt` from `tpplug/crypto.go`: each byte is XORed with the previous
byte of ciphertext, seeded at `0xAB`.  The Go code mutates in place; here the
accumulator `prev` is threaded explicitly. -/
def encryptFrom (prev : Nat) : List Nat → List Nat
  | [] => []
  | b :: rest =>
    let c := b ^^^ prev
    c :: encryptFrom c rest

/-- Entry point of the encryption, seeding `prev` at `0xAB`. -/
def Encrypt (data : List Nat) : List Nat := encryptFrom 0xAB data

/-- `Decrypt` from `tpplug/crypto.go`: each byte is XORed with the previous
byte of the (incoming) ciphertext, seeded at `0xAB`. -/
def decryptFrom (prev : Nat) : List Nat → List Nat
  | [] => []
  | b :: rest => (b ^^^ prev) :: decryptFrom b rest

/-- Entry point of the decryption, seeding `prev` at `0xAB`. -/
def Decrypt (data : List Nat) : List Nat := decryptFrom 0xAB data

end Tpplug

namespace Solarctrl

/-- `TPPlugConfig` from `cmd/solarctrl/main.go`: one configured discretionary
plug.  The network address is irrelevant to the decision logic and omitted. -/
structure TPPlugConfig where
  aliasName : String
  consumption : Int
  turnOn : Bool
  turnOff : Bool
deriving DecidableEq, Repr

/-- The per-plug live state returned by `tpplug.Query`: the relay state
(`1` = on) and the instantaneous energy-meter power in milliwatts. -/
structure PlugState where
  relayState : Int
  realtimePower : Int
deriving DecidableEq, Repr

/-- `TPPlug` from `cmd/solarctrl/main.go`: a queried discretionary plug.
`assumedPower` overrides the measured power when positive (Go zero value 0). -/
structure TPPlug where
  cfg : TPPlugConfig
  state : PlugState
  assumedPower : Int
deriving DecidableEq, Repr

/-- `(tp TPPlug) On()`: the relay state equals 1. -/
def TPPlug.on (tp : TPPlug) : Bool := tp.state.relayState == 1

/-- The raw measured power of a plug state in watts:
`Power(state.EnergyMeter.Realtime.Power / 1000)`.  Go `/` on `int` truncates
toward zero, which is `Int.tdiv`. -/
def rawPower (st : PlugState) : Int := Int.tdiv st.realtimePower 1000

/-- `(tp TPPlug) Power()`: `AssumedPower` if positive, else the converted
energy-meter reading. -/
def TPPlug.power (tp : TPPlug) : Int :=
  if tp.assumedPower > 0 then tp.assumedPower else rawPower tp.state

/-- One entry of the `plugPower` Prometheus telemetry result
(`plugData` in the source; the MAC field is irrelevant here). -/
structure PlugData where
  name : String
  power : Int
deriving DecidableEq, Repr

/-- Association-list lookup, first match wins (Go map read). -/
def lookupT {α : Type} : List (String × α) → String → Option α
  | [], _ => none
  | p :: rest, k => if p.1 = k then some p.2 else lookupT rest k

/-- Association-list erase, removing every binding of the key (Go map delete). -/
def eraseT {α : Type} (m : List (String × α)) (k : String) : List (String × α) :=
  m.filter fun p => decide (p.1 ≠ k)

/-- Association-list overwrite (Go map insert). -/
def mapInsert {α : Type} (m : List (String × α)) (k : String) (v : α) :
    List (String × α) :=
  (k, v) :: eraseT m k

/-- `plugIndex` lookup: the Go loop `plugIndex[pd.Name] = &plugs[i]` lets a
later entry overwrite an earlier one, so the last match wins. -/
def indexLookup (plugs : List PlugData) (name : String) : Option PlugData :=
  plugs.foldl (fun acc pd => if pd.name = name then some pd else acc) none

/-- The per-plug build step of the query loop (`main.go` lines 629-654):
construct the `TPPlug` and nudge its assumed power up to the recent
Prometheus-measured maximum when the plug is on and that maximum is larger. -/
def buildPlug (plugs : List PlugData) (cfg : TPPlugConfig) (st : PlugState) :
    TPPlug :=
  let tp : TPPlug := ⟨cfg, st, 0⟩
  match indexLookup plugs cfg.aliasName with
  | some pd =>
    if st.relayState == 1 && decide (pd.power > tp.power) then
      { tp with assumedPower := pd.power }
    else tp
  | none => tp

/-- One iteration of the query loop over the configured plugs: a failed live
query (`none`) leaves the map unchanged (that plug is excluded from the
cycle); a successful one inserts the built `TPPlug` under its alias. -/
def discStep (plugs : List PlugData) (acc : List (String × TPPlug))
    (d : TPPlugConfig × Option PlugState) : List (String × TPPlug) :=
  match d.2 with
  | none => acc
  | some st => mapInsert acc d.1.aliasName (buildPlug plugs d.1 st)

/-- The `discPlugs` map (keyed by alias) built by the query loop: each
configured plug whose live query succeeded is inserted; a failed query
(`none`) is skipped, excluding only that plug from the cycle. -/
def buildDiscPlugs (plugs : List PlugData)
    (dps : List (TPPlugConfig × Option PlugState)) : List (String × TPPlug) :=
  dps.foldl (discStep plugs) []

/-- The power entering the decision rule (`main.go` lines 700-703):
`power := tp.Power()`, raised to the configured consumption when the plug is
off and the configured value is larger. -/
def usedPower (tp : TPPlug) : Int :=
  if tp.on = false ∧ tp.cfg.consumption > tp.power then tp.cfg.consumption
  else tp.power

/-- The permission check (`main.go` lines 691-698): an on plug must be
allowed to turn off, an off plug must be allowed to turn on; otherwise the
plug is treated as if it were not discretionary. -/
def permitted (tp : TPPlug) : Bool :=
  if tp.on then tp.cfg.turnOff else tp.cfg.turnOn

/-- The debounce test (`main.go` line 682): a toggle record exists and is
younger than the minimum toggle interval. -/
def isDebounced (toggles : List (String × Int)) (name : String)
    (now minToggle : Int) : Bool :=
  match lookupT toggles name with
  | some last => decide (now - last < minToggle)
  | none => false

/-- The pause test (`main.go` lines 676-680, 686): a pause record exists and
is not strictly before `now` (Go `pause.Before(now)` is strict). -/
def pauseActive (pauses : List (String × Int)) (name : String) (now : Int) :
    Bool :=
  match lookupT pauses name with
  | some pe => !decide (pe < now)
  | none => false

/-- Lazy expiry removal (`main.go` lines 677-680): an encountered pause record
strictly before `now` is deleted.  An absent key means the Go zero time, whose
delete is a no-op, so only the present-and-expired case changes the map. -/
def prunePauses (pauses : List (String × Int)) (name : String) (now : Int) :
    List (String × Int) :=
  match lookupT pauses name with
  | some pe => if pe < now then eraseT pauses name else pauses
  | none => pauses

/-- The mutable state threaded through the toggle pass: the running spare
solar, the `lastToggles` map and the `pauses` map. -/
structure EvalState where
  spare : Int
  lastToggles : List (String × Int)
  pauses : List (String × Int)
deriving DecidableEq, Repr

/-- The outcome recorded for one considered plug, mirroring the log lines the
loop body emits. -/
inductive LoadAction where
  | skippedDebounce
  | skippedPaused
  | skippedPermission
  | turnOff (ok : Bool)
  | turnOn (ok : Bool)
  | noAction
deriving DecidableEq, Repr

/-- The body of the toggle loop (`main.go` lines 668-726) for one plug:
prune an expired pause, then in order check debounce, pause, permissions,
then apply the decision rule, adjust the spare solar, issue the relay command
(`cmdOK` gives its outcome) and on success record the toggle time. -/
def stepPlug (minToggle now : Int) (cmdOK : String → Bool) (st : EvalState)
    (tp : TPPlug) : EvalState × LoadAction :=
  let name := tp.cfg.aliasName
  let paused := pauseActive st.pauses name now
  let st1 : EvalState := { st with pauses := prunePauses st.pauses name now }
  if isDebounced st.lastToggles name now minToggle then
    (st1, .skippedDebounce)
  else if paused then
    (st1, .skippedPaused)
  else if tp.on && !tp.cfg.turnOff then
    (st1, .skippedPermission)
  else if !tp.on && !tp.cfg.turnOn then
    (st1, .skippedPermission)
  else
    let power := usedPower tp
    if st1.spare < 0 ∧ tp.on = true then
      let st2 := { st1 with spare := st1.spare + power }
      if cmdOK name then
        ({ st2 with lastToggles := mapInsert st2.lastToggles name now },
         .turnOff true)
      else (st2, .turnOff false)
    else if st1.spare > power ∧ tp.on = false then
      let st2 := { st1 with spare := st1.spare - power }
      if cmdOK name then
        ({ st2 with lastToggles := mapInsert st2.lastToggles name now },
         .turnOn true)
      else (st2, .turnOn false)
    else
      (st1, .noAction)

/-- The inputs of one evaluation cycle.  `solar` and `telemetry` are the two
Prometheus fetches (`none` = query error); `dps` pairs each configured plug
with its live-query result (`none` = query error); `cmdOK` is the outcome of
`tpplug.SetRelayState` for a given alias. -/
structure EvalInput where
  baseline : Int
  minToggle : Int
  now : Int
  solar : Option Int
  telemetry : Option (List PlugData)
  dps : List (TPPlugConfig × Option PlugState)
  cmdOK : String → Bool

/-- What one call of `evaluate` produces: whether it aborted with an error,
the spare solar before and after the toggle pass (as logged), the per-plug
actions, the resulting toggle and pause maps, and the `seen` list. -/
structure EvalResult where
  aborted : Bool
  spare0 : Option Int
  finalSpare : Option Int
  actions : List (String × LoadAction)
  lastToggles : List (String × Int)
  pauses : List (String × Int)
  seen : List String

/-- One iteration of the toggle pass: run `stepPlug` on the accumulated state
and append the plug's recorded action. -/
def cycleStep (minToggle now : Int) (cmdOK : String → Bool)
    (acc : EvalState × List (String × LoadAction)) (kv : String × TPPlug) :
    EvalState × List (String × LoadAction) :=
  let r := stepPlug minToggle now cmdOK acc.1 kv.2
  (r.1, acc.2 ++ [(kv.1, r.2)])

/-- `(s *server) evaluate` (`main.go` lines 590-731).  A failed solar query or
a failed plug-power query returns early (the deferred handler logs the error);
otherwise the spare solar is seeded from the telemetry sum and the toggle pass
folds `stepPlug` over the `discPlugs` map. -/
def evaluate (inp : EvalInput) (lastToggles pauses : List (String × Int)) :
    EvalResult :=
  match inp.solar with
  | none => ⟨true, none, none, [], lastToggles, pauses, []⟩
  | some solar =>
    match inp.telemetry with
    | none => ⟨true, none, none, [], lastToggles, pauses, []⟩
    | some plugs =>
      let discPlugs := buildDiscPlugs plugs inp.dps
      let spare0 := plugs.foldl (fun s p => s - p.power) (solar - inp.baseline)
      let init : EvalState := ⟨spare0, lastToggles, pauses⟩
      let fin := discPlugs.foldl (cycleStep inp.minToggle inp.now inp.cmdOK)
        (init, [])
      ⟨false, some spare0, some fin.1.spare, fin.2, fin.1.lastToggles,
       fin.1.pauses, discPlugs.map Prod.fst⟩

/-- Taken from the claim's words (for comparison with the source's surplus
computation): source power minus the baseline minus the used power of every
currently-on observed load, with currently-off observed loads contributing
nothing.  An observed load is given as an `(is_on, used_power)` pair. -/
def claimInitialSurplus (s baseline : Int) (obs : List (Bool × Int)) : Int :=
  s - baseline - ((obs.filter fun o => o.1).map fun o => o.2).sum

end Solarctrl

/-! ## Theorems -/

namespace Tpplug

lemma decryptFrom_encryptFrom (l : List Nat) : ∀ prev : Nat,
    decryptFrom prev (encryptFrom prev l) = l := by
  induction l with
  | nil => intro prev; rfl
  | cons b rest ih =>
    intro prev
    simp only [encryptFrom, decryptFrom, ih]
    rw [Nat.xor_assoc, Nat.xor_self, Nat.xor_zero]

lemma encryptFrom_decryptFrom (l : List Nat) : ∀ prev : Nat,
    encryptFrom prev (decryptFrom prev l) = l := by
  induction l with
  | nil => intro prev; rfl
  | cons b rest ih =>
    intro prev
    simp only [encryptFrom, decryptFrom]
    rw [Nat.xor_assoc, Nat.xor_self, Nat.xor_zero, ih]

/-- Claim C9: for every byte sequence, `Decrypt` after `Encrypt` restores it
exactly and `Encrypt` after `Decrypt` does too, so with the autokey XOR scheme
seeded at `0xAB` the two functions are two-sided inverses and every framed
message round-trips losslessly. -/
theorem c9_crypto_round_trip (b : List Nat) :
    Decrypt (Encrypt b) = b ∧ Encrypt (Decrypt b) = b :=
  ⟨decryptFrom_encryptFrom b 0xAB, encryptFrom_decryptFrom b 0xAB⟩

end Tpplug

namespace Solarctrl

lemma stepPlug_pauses (minToggle now : Int) (cmdOK : String → Bool)
    (st : EvalState) (tp : TPPlug) :
    (stepPlug minToggle now cmdOK st tp).1.pauses
      = prunePauses st.pauses tp.cfg.aliasName now := by
  simp only [stepPlug]
  repeat' split
  all_goals rfl

lemma lookupT_eraseT {α : Type} (m : List (String × α)) (k : String) :
    lookupT (eraseT m k) k = none := by
  induction m with
  | nil => rfl
  | cons p rest ih =>
    by_cases h : p.1 = k
    · simpa [eraseT, List.filter_cons, h] using ih
    · simpa [eraseT, List.filter_cons, h, lookupT] using ih

lemma prunePauses_of_active (ps : List (String × Int)) (name : String)
    (now : Int) (h : pauseActive ps name now = true) :
    prunePauses ps name now = ps := by
  unfold pauseActive at h
  unfold prunePauses
  cases hl : lookupT ps name with
  | none => rfl
  | some pe =>
    rw [hl] at h
    simp only [Bool.not_eq_true', decide_eq_false_iff_not] at h
    simp [h]

/-- Claim C1: for a discretionary load that passes the pause, debounce and
permission checks, the decision rule applies with its two branches mutually
exclusive and the first match winning: a negative running surplus with the
load on issues a turn-off command and raises the surplus by exactly the
load's used power; otherwise a surplus strictly above the used power with
the load off issues a turn-on command and lowers the surplus by exactly the
used power; otherwise nothing happens to that load. -/
theorem c1_decision_rule (minToggle now : Int) (cmdOK : String → Bool)
    (st : EvalState) (tp : TPPlug)
    (hd : isDebounced st.lastToggles tp.cfg.aliasName now minToggle = false)
    (hp : pauseActive st.pauses tp.cfg.aliasName now = false)
    (hm : permitted tp = true) :
    (st.spare < 0 ∧ tp.on = true →
      (stepPlug minToggle now cmdOK st tp).2
        = LoadAction.turnOff (cmdOK tp.cfg.aliasName) ∧
      (stepPlug minToggle now cmdOK st tp).1.spare
        = st.spare + usedPower tp) ∧
    (¬(st.spare < 0 ∧ tp.on = true) →
      st.spare > usedPower tp ∧ tp.on = false →
      (stepPlug minToggle now cmdOK st tp).2
        = LoadAction.turnOn (cmdOK tp.cfg.aliasName) ∧
      (stepPlug minToggle now cmdOK st tp).1.spare
        = st.spare - usedPower tp) ∧
    (¬(st.spare < 0 ∧ tp.on = true) →
      ¬(st.spare > usedPower tp ∧ tp.on = false) →
      (stepPlug minToggle now cmdOK st tp).2 = LoadAction.noAction ∧
      (stepPlug minToggle now cmdOK st tp).1.spare = st.spare ∧
      (stepPlug minToggle now cmdOK st tp).1.lastToggles = st.lastToggles) := by
  cases ho : tp.on
  · have hon : tp.cfg.turnOn = true := by
      unfold permitted at hm
      rwa [ho] at hm
    refine ⟨?_, ?_, ?_⟩
    · intro h1
      simp at h1
    · intro _ h2
      cases hc : cmdOK tp.cfg.aliasName <;>
        simp [stepPlug, hd, hp, ho, hon, h2.1, hc]
    · intro _ hn2
      have hs : ¬ st.spare > usedPower tp := fun hs => hn2 ⟨hs, rfl⟩
      simp [stepPlug, hd, hp, ho, hon, hs]
  · have hoff : tp.cfg.turnOff = true := by
      unfold permitted at hm
      rwa [ho] at hm
    refine ⟨?_, ?_, ?_⟩
    · intro h1
      cases hc : cmdOK tp.cfg.aliasName <;>
        simp [stepPlug, hd, hp, ho, hoff, h1.1, hc]
    · intro _ h2
      simp at h2
    · intro hn1 _
      have hs : ¬ st.spare < 0 := fun hs => hn1 ⟨hs, rfl⟩
      simp [stepPlug, hd, hp, ho, hoff, hs]

/-- Claim C3: a load with an active, non-expired pause record when it is
considered produces no toggle decision that cycle regardless of the surplus
(it is skipped, leaving surplus, toggle records and the pause record itself
unchanged), and an encountered pause record strictly before `now` is removed,
after which the pause test no longer fires for that load. -/
theorem c3_pause_excludes_load (minToggle now : Int) (cmdOK : String → Bool)
    (st : EvalState) (tp : TPPlug) :
    (pauseActive st.pauses tp.cfg.aliasName now = true →
      ((stepPlug minToggle now cmdOK st tp).2 = LoadAction.skippedDebounce ∨
       (stepPlug minToggle now cmdOK st tp).2 = LoadAction.skippedPaused) ∧
      (stepPlug minToggle now cmdOK st tp).1.spare = st.spare ∧
      (stepPlug minToggle now cmdOK st tp).1.lastToggles = st.lastToggles ∧
      (stepPlug minToggle now cmdOK st tp).1.pauses = st.pauses) ∧
    (∀ pe : Int, lookupT st.pauses tp.cfg.aliasName = some pe → pe < now →
      lookupT (stepPlug minToggle now cmdOK st tp).1.pauses tp.cfg.aliasName
        = none ∧
      pauseActive (stepPlug minToggle now cmdOK st tp).1.pauses
        tp.cfg.aliasName now = false) := by
  constructor
  · intro hp
    have hpr := prunePauses_of_active st.pauses tp.cfg.aliasName now hp
    cases hd : isDebounced st.lastToggles tp.cfg.aliasName now minToggle
    · refine ⟨Or.inr ?_, ?_, ?_, ?_⟩ <;> simp [stepPlug, hd, hp, hpr]
    · refine ⟨Or.inl ?_, ?_, ?_, ?_⟩ <;> simp [stepPlug, hd, hp, hpr]
  · intro pe hl hpe
    have hpr : prunePauses st.pauses tp.cfg.aliasName now
        = eraseT st.pauses tp.cfg.aliasName := by
      unfold prunePauses
      rw [hl]
      simp [hpe]
    rw [stepPlug_pauses, hpr]
    refine ⟨lookupT_eraseT _ _, ?_⟩
    unfold pauseActive
    rw [lookupT_eraseT]

/-- Claim C4: a load whose toggle record is younger than the minimum toggle
interval when it is considered is skipped: no toggle is produced for it that
cycle regardless of the surplus, and its surplus and toggle records are left
unchanged. -/
theorem c4_debounce_suppresses_toggle (minToggle now : Int)
    (cmdOK : String → Bool) (st : EvalState) (tp : TPPlug) (last : Int)
    (hl : lookupT st.lastToggles tp.cfg.aliasName = some last)
    (hy : now - last < minToggle) :
    (stepPlug minToggle now cmdOK st tp).2 = LoadAction.skippedDebounce ∧
    (stepPlug minToggle now cmdOK st tp).1.spare = st.spare ∧
    (stepPlug minToggle now cmdOK st tp).1.lastToggles = st.lastToggles := by
  have hd : isDebounced st.lastToggles tp.cfg.aliasName now minToggle = true := by
    unfold isDebounced
    rw [hl]
    simpa using hy
  refine ⟨?_, ?_, ?_⟩ <;> simp [stepPlug, hd]

/-- Claim C5: the toggle-record map after a load is considered equals the old
map with the load's entry set to `now` exactly when the issued command
succeeded; in every other outcome (failed command, skip, or no action) the
map is unchanged, and no second command is issued for that load in the
cycle. -/
theorem c5_toggle_record_only_on_success (minToggle now : Int)
    (cmdOK : String → Bool) (st : EvalState) (tp : TPPlug) :
    (stepPlug minToggle now cmdOK st tp).1.lastToggles =
      if (stepPlug minToggle now cmdOK st tp).2 = LoadAction.turnOff true ∨
         (stepPlug minToggle now cmdOK st tp).2 = LoadAction.turnOn true
      then mapInsert st.lastToggles tp.cfg.aliasName now
      else st.lastToggles := by
  simp only [stepPlug]
  repeat' split
  all_goals simp_all

/-- Claim C10: when the relay command fails, the running surplus keeps the
adjustment made before the command was issued (plus the used power on a
turn-off, minus it on a turn-on) and is not rolled back, while the
toggle-record map alone is left unchanged; the adjusted surplus is what the
fold hands to every load considered later in the cycle. -/
theorem c10_failed_toggle_keeps_adjusted_spare (minToggle now : Int)
    (cmdOK : String → Bool) (st : EvalState) (tp : TPPlug) :
    ((stepPlug minToggle now cmdOK st tp).2 = LoadAction.turnOff false →
      (stepPlug minToggle now cmdOK st tp).1.spare
        = st.spare + usedPower tp ∧
      (stepPlug minToggle now cmdOK st tp).1.lastToggles = st.lastToggles) ∧
    ((stepPlug minToggle now cmdOK st tp).2 = LoadAction.turnOn false →
      (stepPlug minToggle now cmdOK st tp).1.spare
        = st.spare - usedPower tp ∧
      (stepPlug minToggle now cmdOK st tp).1.lastToggles = st.lastToggles) := by
  simp only [stepPlug]
  repeat' split
  all_goals simp_all


lemma foldl_sub (l : List PlugData) : ∀ init : Int,
    l.foldl (fun s p => s - p.power) init
      = init - (l.map fun p => p.power).sum := by
  induction l with
  | nil => intro init; simp
  | cons p t ih =>
    intro init
    rw [List.foldl_cons, ih]
    simp
    ring

/-- Claim C2 (amended): at the start of the toggle pass the surplus equals
the fetched source power minus the configured baseline minus the sum of the
recent-telemetry power of every plug in the telemetry result, regardless of
each plug's current on/off state; live on/off state does not enter this sum,
and a currently-on load absent from the telemetry contributes nothing. -/
theorem c2_amended_initial_surplus (base mt now S : Int) (tel : List PlugData)
    (dps : List (TPPlugConfig × Option PlugState)) (cmdOK : String → Bool)
    (toggles pauses : List (String × Int)) :
    (evaluate ⟨base, mt, now, some S, some tel, dps, cmdOK⟩
        toggles pauses).spare0
      = some (S - base - (tel.map fun p => p.power).sum) := by
  simp only [evaluate]
  rw [foldl_sub]

/-- Counterexample to claim C2 as stated: with source 1000, baseline 200 and
one observed discretionary plug that is currently off but has a telemetry
entry of 100, the code's initial surplus is 700, while the claim (off loads
contribute nothing) predicts 800. -/
theorem c2_counterexample :
    (evaluate ⟨200, 300, 1000, some 1000, some [⟨"a", 100⟩],
      [(⟨"a", 100, true, true⟩, some ⟨0, 0⟩)], fun _ => true⟩ [] []).spare0
      = some 700 ∧
    claimInitialSurplus 1000 200 [(false, 100)] = 800 ∧
    (700 : Int) ≠ 800 :=
  ⟨by decide, by decide, by decide⟩

/-- Claim C6 (amended): a failure of either Prometheus fetch — the aggregate
source power or the recent-usage plug telemetry — aborts the whole cycle:
the error is logged, no load is considered and no toggle command is
attempted, and the toggle and pause maps are left unchanged. -/
theorem c6_amended_both_fetch_failures_abort (base mt now : Int)
    (sOpt : Option Int) (tel : Option (List PlugData))
    (dps : List (TPPlugConfig × Option PlugState)) (cmdOK : String → Bool)
    (toggles pauses : List (String × Int))
    (h : sOpt = none ∨ tel = none) :
    (evaluate ⟨base, mt, now, sOpt, tel, dps, cmdOK⟩ toggles pauses).aborted
        = true ∧
    (evaluate ⟨base, mt, now, sOpt, tel, dps, cmdOK⟩ toggles pauses).actions
        = [] ∧
    (evaluate ⟨base, mt, now, sOpt, tel, dps, cmdOK⟩ toggles pauses).lastToggles
        = toggles ∧
    (evaluate ⟨base, mt, now, sOpt, tel, dps, cmdOK⟩ toggles pauses).pauses
        = pauses ∧
    (evaluate ⟨base, mt, now, sOpt, tel, dps, cmdOK⟩ toggles pauses).seen
        = [] := by
  rcases h with h | h
  · subst h
    exact ⟨rfl, rfl, rfl, rfl, rfl⟩
  · subst h
    cases sOpt <;> exact ⟨rfl, rfl, rfl, rfl, rfl⟩

/-- Counterexample to claim C6 as stated: with the solar fetch succeeding but
the recent-usage telemetry fetch failing, the cycle does not proceed on live
state — it aborts with no load considered and no action — whereas the same
configuration with telemetry present does consider the load. -/
theorem c6_counterexample :
    (evaluate ⟨200, 300, 1000, some 1000, none,
      [(⟨"a", 100, true, true⟩, some ⟨1, 500000⟩)], fun _ => true⟩ [] []).aborted
      = true ∧
    (evaluate ⟨200, 300, 1000, some 1000, none,
      [(⟨"a", 100, true, true⟩, some ⟨1, 500000⟩)], fun _ => true⟩ [] []).seen
      = [] ∧
    (evaluate ⟨200, 300, 1000, some 1000, none,
      [(⟨"a", 100, true, true⟩, some ⟨1, 500000⟩)], fun _ => true⟩ [] []).actions
      = [] ∧
    (evaluate ⟨200, 300, 1000, some 1000, some [⟨"a", 500⟩],
      [(⟨"a", 100, true, true⟩, some ⟨1, 500000⟩)], fun _ => true⟩ [] []).seen
      = ["a"] := by
  refine ⟨rfl, rfl, rfl, by decide⟩

lemma mem_keys_eraseT {α : Type} (m : List (String × α)) (k a : String) :
    a ∈ (eraseT m k).map Prod.fst ↔ a ∈ m.map Prod.fst ∧ a ≠ k := by
  simp only [eraseT, List.mem_map, List.mem_filter, decide_eq_true_eq]
  constructor
  · rintro ⟨p, ⟨hp, hne⟩, rfl⟩
    exact ⟨⟨p, hp, rfl⟩, hne⟩
  · rintro ⟨⟨p, hp, rfl⟩, hne⟩
    exact ⟨p, ⟨hp, hne⟩, rfl⟩

lemma mem_keys_mapInsert {α : Type} (m : List (String × α)) (k a : String)
    (v : α) :
    a ∈ (mapInsert m k v).map Prod.fst ↔ a = k ∨ a ∈ m.map Prod.fst := by
  have hh : (mapInsert m k v).map Prod.fst = k :: (eraseT m k).map Prod.fst :=
    rfl
  rw [hh, List.mem_cons, mem_keys_eraseT]
  by_cases hak : a = k <;> simp [hak]

lemma mem_keys_foldl_discStep (plugs : List PlugData)
    (dps : List (TPPlugConfig × Option PlugState)) :
    ∀ (acc : List (String × TPPlug)) (a : String),
    a ∈ (dps.foldl (discStep plugs) acc).map Prod.fst ↔
      a ∈ acc.map Prod.fst ∨
      ∃ cfg st, (cfg, some st) ∈ dps ∧ cfg.aliasName = a := by
  induction dps with
  | nil => intro acc a; simp
  | cons d t ih =>
    intro acc a
    rw [List.foldl_cons, ih]
    rcases d with ⟨cfg, ost⟩
    cases ost with
    | none =>
      simp only [discStep]
      constructor
      · rintro (h | ⟨cfg', st', hmem', heq⟩)
        · exact Or.inl h
        · exact Or.inr ⟨cfg', st', List.mem_cons_of_mem _ hmem', heq⟩
      · rintro (h | ⟨cfg', st', hmem', heq⟩)
        · exact Or.inl h
        · rcases List.mem_cons.1 hmem' with hc | hc
          · simp at hc
          · exact Or.inr ⟨cfg', st', hc, heq⟩
    | some stq =>
      simp only [discStep, mem_keys_mapInsert]
      constructor
      · rintro ((h | h) | ⟨cfg', st', hmem', heq⟩)
        · exact Or.inr ⟨cfg, stq, List.mem_cons_self _ _, h.symm⟩
        · exact Or.inl h
        · exact Or.inr ⟨cfg', st', List.mem_cons_of_mem _ hmem', heq⟩
      · rintro (h | ⟨cfg', st', hmem', heq⟩)
        · exact Or.inl (Or.inr h)
        · rcases List.mem_cons.1 hmem' with hc | hc
          · rcases Prod.mk.injEq .. ▸ hc with ⟨h1, h2⟩
            exact Or.inl (Or.inl (by rw [← heq, h1]))
          · exact Or.inr ⟨cfg', st', hc, heq⟩

/-- Claim C7: when the live-state query of one configured load fails, only
that load is excluded from the cycle (its alias does not appear among the
considered loads — it is not treated as off), while every other configured
load with a successful query is still considered; under distinct configured
aliases, membership in the cycle's seen set is exactly query success. -/
theorem c7_query_failure_excludes_only_that_load (base mt now S : Int)
    (tel : List PlugData) (dps : List (TPPlugConfig × Option PlugState))
    (cmdOK : String → Bool) (toggles pauses : List (String × Int))
    (hnd : (dps.map fun d => d.1.aliasName).Nodup)
    (cfg : TPPlugConfig) (ost : Option PlugState)
    (hmem : (cfg, ost) ∈ dps) :
    cfg.aliasName ∈ (evaluate ⟨base, mt, now, some S, some tel, dps, cmdOK⟩
        toggles pauses).seen ↔ ost.isSome = true := by
  have hseen : (evaluate ⟨base, mt, now, some S, some tel, dps, cmdOK⟩
      toggles pauses).seen = (buildDiscPlugs tel dps).map Prod.fst := rfl
  rw [hseen]
  unfold buildDiscPlugs
  rw [mem_keys_foldl_discStep]
  constructor
  · rintro (h | ⟨cfg', st', hmem', heq⟩)
    · simp at h
    · have heq2 : (fun d : TPPlugConfig × Option PlugState => d.1.aliasName)
          (cfg', some st') = (fun d : TPPlugConfig × Option PlugState =>
          d.1.aliasName) (cfg, ost) := heq
      have hpair := List.inj_on_of_nodup_map hnd hmem' hmem heq2
      have h2 : some st' = ost := (Prod.ext_iff.1 hpair).2
      rw [← h2]
      rfl
  · intro h
    cases ost with
    | none => simp at h
    | some stv => exact Or.inr ⟨cfg, stv, hmem, rfl⟩

/-- Claim C8 (amended): for a discretionary load with a non-negative live
reading, the used power entering the decision rule is the maximum of the
live measured power and the recent-peak telemetry when the load is on (the
live reading alone if no telemetry entry exists), and the maximum of the
configured fallback consumption and the live reading when the load is off
(the recent-peak telemetry is not applied to off loads). -/
theorem c8_amended_used_power (plugs : List PlugData) (cfg : TPPlugConfig)
    (st : PlugState) (h : 0 ≤ rawPower st) :
    (st.relayState = 1 →
      usedPower (buildPlug plugs cfg st) =
        (match indexLookup plugs cfg.aliasName with
         | some pd => max (rawPower st) pd.power
         | none => rawPower st)) ∧
    (¬ st.relayState = 1 →
      usedPower (buildPlug plugs cfg st)
        = max cfg.consumption (rawPower st)) := by
  have hbase : (⟨cfg, st, 0⟩ : TPPlug).power = rawPower st := by
    simp [TPPlug.power]
  constructor
  · intro hrel
    have hon : (⟨cfg, st, 0⟩ : TPPlug).on = true := by
      simp [TPPlug.on, hrel]
    unfold buildPlug
    cases hidx : indexLookup plugs cfg.aliasName with
    | none =>
      simp [usedPower, hon, hbase]
    | some pd =>
      dsimp only
      by_cases hgt : pd.power > (⟨cfg, st, 0⟩ : TPPlug).power
      · have hlt : rawPower st < pd.power := by rwa [hbase] at hgt
        have hpos : pd.power > 0 := by omega
        rw [max_eq_right (le_of_lt hlt)]
        simp only [hrel, beq_self_eq_true, Bool.true_and, decide_eq_true hgt,
          if_pos]
        simp [usedPower, TPPlug.on, hrel, TPPlug.power, hpos]
      · rw [hbase] at hgt
        rw [max_eq_left (not_lt.1 hgt)]
        simp only [hbase, decide_eq_false hgt, Bool.and_false,
          Bool.false_eq_true, if_neg, ite_false]
        simp [usedPower, hon, hbase]
  · intro hrel0
    have hoff : (st.relayState == 1) = false := by
      simp [hrel0]
    have honf : (⟨cfg, st, 0⟩ : TPPlug).on = false := by
      simp [TPPlug.on, hrel0]
    have hstep : buildPlug plugs cfg st = ⟨cfg, st, 0⟩ := by
      unfold buildPlug
      cases hidx : indexLookup plugs cfg.aliasName <;> simp [hoff]
    rw [hstep]
    rcases lt_or_ge (rawPower st) cfg.consumption with hc | hc
    · rw [max_eq_left (le_of_lt hc)]
      simp [usedPower, honf, hbase, hc]
    · have hc2 : ¬ rawPower st < cfg.consumption := not_lt.2 hc
      rw [max_eq_right hc]
      simp [usedPower, honf, hbase, hc2]

/-- Counterexample to claim C8 as stated: an off plug (relay 0) whose
energy meter still reads 500 W, with a configured fallback consumption of
100 W, enters the decision rule with used power 500, not the fallback 100
the claim prescribes. -/
theorem c8_counterexample :
    usedPower (buildPlug [] ⟨"a", 100, true, true⟩ ⟨0, 500000⟩) = 500 ∧
    (500 : Int) ≠ 100 :=
  ⟨by decide, by decide⟩

end Solarctrl

namespace Solarctrl

/-- Witness for the C1 theorem: a concrete on plug with negative surplus is
turned off and the surplus rises by its used power. -/
theorem c1_witness :
    isDebounced ([] : List (String × Int)) "a" 1000 300 = false ∧
    pauseActive ([] : List (String × Int)) "a" 1000 = false ∧
    permitted ⟨⟨"a", 100, true, true⟩, ⟨1, 200000⟩, 0⟩ = true ∧
    ((-50 : Int) < 0 ∧ TPPlug.on ⟨⟨"a", 100, true, true⟩, ⟨1, 200000⟩, 0⟩
        = true) ∧
    ((stepPlug 300 1000 (fun _ => true) ⟨-50, [], []⟩
        ⟨⟨"a", 100, true, true⟩, ⟨1, 200000⟩, 0⟩).2
      = LoadAction.turnOff ((fun _ : String => true) "a") ∧
     (stepPlug 300 1000 (fun _ => true) ⟨-50, [], []⟩
        ⟨⟨"a", 100, true, true⟩, ⟨1, 200000⟩, 0⟩).1.spare
      = -50 + usedPower ⟨⟨"a", 100, true, true⟩, ⟨1, 200000⟩, 0⟩) :=
  ⟨by decide, by decide, by decide, ⟨by decide, by decide⟩,
   (c1_decision_rule 300 1000 (fun _ => true) ⟨-50, [], []⟩
      ⟨⟨"a", 100, true, true⟩, ⟨1, 200000⟩, 0⟩ (by decide) (by decide)
      (by decide)).1 ⟨by decide, by decide⟩⟩

/-- Witness for the C3 theorem: a concrete active pause skips the plug and a
concrete expired pause is removed. -/
theorem c3_witness :
    pauseActive [("a", (2000 : Int))] "a" 1000 = true ∧
    (((stepPlug 300 1000 (fun _ => true) ⟨500, [], [("a", 2000)]⟩
        ⟨⟨"a", 100, true, true⟩, ⟨0, 0⟩, 0⟩).2 = LoadAction.skippedDebounce ∨
      (stepPlug 300 1000 (fun _ => true) ⟨500, [], [("a", 2000)]⟩
        ⟨⟨"a", 100, true, true⟩, ⟨0, 0⟩, 0⟩).2 = LoadAction.skippedPaused) ∧
     (stepPlug 300 1000 (fun _ => true) ⟨500, [], [("a", 2000)]⟩
        ⟨⟨"a", 100, true, true⟩, ⟨0, 0⟩, 0⟩).1.spare = 500 ∧
     (stepPlug 300 1000 (fun _ => true) ⟨500, [], [("a", 2000)]⟩
        ⟨⟨"a", 100, true, true⟩, ⟨0, 0⟩, 0⟩).1.lastToggles = [] ∧
     (stepPlug 300 1000 (fun _ => true) ⟨500, [], [("a", 2000)]⟩
        ⟨⟨"a", 100, true, true⟩, ⟨0, 0⟩, 0⟩).1.pauses = [("a", 2000)]) ∧
    lookupT [("b", (5 : Int))] "b" = some 5 ∧ ((5 : Int) < 1000) ∧
    (lookupT (stepPlug 300 1000 (fun _ => true) ⟨500, [], [("b", 5)]⟩
        ⟨⟨"b", 100, true, true⟩, ⟨0, 0⟩, 0⟩).1.pauses "b" = none ∧
     pauseActive (stepPlug 300 1000 (fun _ => true) ⟨500, [], [("b", 5)]⟩
        ⟨⟨"b", 100, true, true⟩, ⟨0, 0⟩, 0⟩).1.pauses "b" 1000 = false) :=
  ⟨by decide,
   (c3_pause_excludes_load 300 1000 (fun _ => true) ⟨500, [], [("a", 2000)]⟩
      ⟨⟨"a", 100, true, true⟩, ⟨0, 0⟩, 0⟩).1 (by decide),
   by decide, by decide,
   (c3_pause_excludes_load 300 1000 (fun _ => true) ⟨500, [], [("b", 5)]⟩
      ⟨⟨"b", 100, true, true⟩, ⟨0, 0⟩, 0⟩).2 5 (by decide) (by decide)⟩

/-- Witness for the C4 theorem: a concrete toggle record 10 time units old
with a 300-unit minimum interval suppresses the toggle. -/
theorem c4_witness :
    lookupT [("a", (990 : Int))] "a" = some 990 ∧
    ((1000 : Int) - 990 < 300) ∧
    ((stepPlug 300 1000 (fun _ => true) ⟨-50, [("a", 990)], []⟩
        ⟨⟨"a", 100, true, true⟩, ⟨1, 200000⟩, 0⟩).2
        = LoadAction.skippedDebounce ∧
     (stepPlug 300 1000 (fun _ => true) ⟨-50, [("a", 990)], []⟩
        ⟨⟨"a", 100, true, true⟩, ⟨1, 200000⟩, 0⟩).1.spare = -50 ∧
     (stepPlug 300 1000 (fun _ => true) ⟨-50, [("a", 990)], []⟩
        ⟨⟨"a", 100, true, true⟩, ⟨1, 200000⟩, 0⟩).1.lastToggles
        = [("a", 990)]) :=
  ⟨by decide, by decide,
   c4_debounce_suppresses_toggle 300 1000 (fun _ => true)
     ⟨-50, [("a", 990)], []⟩ ⟨⟨"a", 100, true, true⟩, ⟨1, 200000⟩, 0⟩ 990
     (by decide) (by decide)⟩

/-- Witness for the C10 theorem: a concrete failed turn-off leaves the spare
adjusted upward and the toggle map unchanged. -/
theorem c10_witness :
    (stepPlug 300 1000 (fun _ => false) ⟨-50, [], []⟩
        ⟨⟨"a", 100, true, true⟩, ⟨1, 200000⟩, 0⟩).2
      = LoadAction.turnOff false ∧
    ((stepPlug 300 1000 (fun _ => false) ⟨-50, [], []⟩
        ⟨⟨"a", 100, true, true⟩, ⟨1, 200000⟩, 0⟩).1.spare
      = -50 + usedPower ⟨⟨"a", 100, true, true⟩, ⟨1, 200000⟩, 0⟩ ∧
     (stepPlug 300 1000 (fun _ => false) ⟨-50, [], []⟩
        ⟨⟨"a", 100, true, true⟩, ⟨1, 200000⟩, 0⟩).1.lastToggles = []) :=
  ⟨by decide,
   (c10_failed_toggle_keeps_adjusted_spare 300 1000 (fun _ => false)
      ⟨-50, [], []⟩ ⟨⟨"a", 100, true, true⟩, ⟨1, 200000⟩, 0⟩).1 (by decide)⟩

/-- Witness for the amended C6 theorem: a concrete failed telemetry fetch
aborts the cycle with all state unchanged. -/
theorem c6_witness :
    (some (1000 : Int) = none ∨ (none : Option (List PlugData)) = none) ∧
    ((evaluate ⟨200, 300, 1000, some 1000, none, [], fun _ => true⟩
        [("a", 5)] [("b", 7)]).aborted = true ∧
     (evaluate ⟨200, 300, 1000, some 1000, none, [], fun _ => true⟩
        [("a", 5)] [("b", 7)]).actions = [] ∧
     (evaluate ⟨200, 300, 1000, some 1000, none, [], fun _ => true⟩
        [("a", 5)] [("b", 7)]).lastToggles = [("a", 5)] ∧
     (evaluate ⟨200, 300, 1000, some 1000, none, [], fun _ => true⟩
        [("a", 5)] [("b", 7)]).pauses = [("b", 7)] ∧
     (evaluate ⟨200, 300, 1000, some 1000, none, [], fun _ => true⟩
        [("a", 5)] [("b", 7)]).seen = []) :=
  ⟨Or.inr rfl,
   c6_amended_both_fetch_failures_abort 200 300 1000 (some 1000) none []
     (fun _ => true) [("a", 5)] [("b", 7)] (Or.inr rfl)⟩

/-- Witness for the C7 theorem: of two configured plugs, the one whose query
failed is absent from the seen set while the other is present. -/
theorem c7_witness :
    ([(⟨"a", 100, true, true⟩, some ⟨1, 200000⟩),
      (⟨"b", 50, true, true⟩, (none : Option PlugState))].map
        fun d : TPPlugConfig × Option PlugState => d.1.aliasName).Nodup ∧
    ((⟨"b", 50, true, true⟩, (none : Option PlugState)) ∈
      ([(⟨"a", 100, true, true⟩, some ⟨1, 200000⟩),
        (⟨"b", 50, true, true⟩, none)] :
        List (TPPlugConfig × Option PlugState))) ∧
    (TPPlugConfig.aliasName ⟨"b", 50, true, true⟩ ∈
      (evaluate ⟨200, 300, 1000, some 1000, some [⟨"a", 500⟩],
        [(⟨"a", 100, true, true⟩, some ⟨1, 200000⟩),
         (⟨"b", 50, true, true⟩, none)], fun _ => true⟩ [] []).seen
      ↔ (none : Option PlugState).isSome = true) :=
  ⟨by decide, by decide,
   c7_query_failure_excludes_only_that_load 200 300 1000 1000 [⟨"a", 500⟩]
     [(⟨"a", 100, true, true⟩, some ⟨1, 200000⟩),
      (⟨"b", 50, true, true⟩, none)] (fun _ => true) [] [] (by decide)
     ⟨"b", 50, true, true⟩ none (by decide)⟩

/-- Witness for the amended C8 theorem: a concrete on plug with live reading
200 W and recent peak 500 W enters the decision rule at their maximum. -/
theorem c8_witness :
    (0 : Int) ≤ rawPower ⟨1, 200000⟩ ∧
    usedPower (buildPlug [⟨"x", 500⟩] ⟨"x", 100, true, true⟩ ⟨1, 200000⟩)
      = max (rawPower ⟨1, 200000⟩) 500 :=
  ⟨by decide,
   ((c8_amended_used_power [⟨"x", 500⟩] ⟨"x", 100, true, true⟩ ⟨1, 200000⟩
      (by decide)).1 rfl).trans (by decide)⟩

end Solarctrl
